import Mathlib

/-!
Shallow embedding of the LibreViewApp repository (haseeb-heaven/LibreViewApp).

Python strings are modelled as lists of characters (`Str`), Python values
(the JSON-like values flowing through the client) as the inductive `Val`,
and each client class as explicit state passing over a `Ctx` record that
also logs every HTTP request issued (the `trace`) and consumes scripted
wire outcomes (the `script`).  Exceptions are modelled with `Except` over
the `PyError` type.  The sources embedded here are `client.py`,
`client_new.py` and `libreapp/utils/data_masking.py`.
-/

/-- Python strings, modelled as lists of characters. -/
abbrev Str := List Char

/-- Python values as they occur in this client: JSON values plus Python
`None` and booleans.  Dictionaries are association lists with string keys
(Python dictionaries in this code never carry duplicate keys). -/
inductive Val where
  | str  : Str → Val
  | int  : Int → Val
  | bool : Bool → Val
  | null : Val
  | dict : List (Str × Val) → Val
  | list : List Val → Val

/-- Python truthiness (`if value:`): `None`, `False`, `0`, and empty
strings/dicts/lists are falsy, everything else is truthy. -/
def truthy : Val → Bool
  | .str s0  => !s0.isEmpty
  | .int n   => !(n == 0)
  | .bool b  => b
  | .null    => false
  | .dict es => !es.isEmpty
  | .list xs => !xs.isEmpty

/-- Truthiness of an `Optional` attribute (`if not self.token:`): a missing
value (`None`) is falsy, otherwise ordinary truthiness applies. -/
def truthyOpt : Option Val → Bool
  | Option.none => false
  | some v      => truthy v

/-- Python `repr` of a string without special characters: the string in
single quotes (escaping of quotes/backslashes is not modelled; no value in
the claims contains them). -/
def reprOfStr (k : Str) : Str := '\'' :: (k ++ ['\''])

mutual

/-- Python `repr` for our values, as produced for `str()` of non-string
values (`str(value)` in the maskers, f-string interpolation). -/
def pyRepr : Val → Str
  | .str s0     => reprOfStr s0
  | .int n      => (toString n).data
  | .bool true  => "True".data
  | .bool false => "False".data
  | .null       => "None".data
  | .dict es    => '\x7b' :: (pyReprEntries es ++ ['\x7d'])
  | .list xs    => '[' :: (pyReprList xs ++ [']'])

/-- Comma-separated `repr` of dictionary entries, as in Python dict repr. -/
def pyReprEntries : List (Str × Val) → Str
  | [] => []
  | [(k, v)] => reprOfStr k ++ ": ".data ++ pyRepr v
  | (k, v) :: rest =>
      reprOfStr k ++ ": ".data ++ pyRepr v ++ ", ".data ++ pyReprEntries rest

/-- Comma-separated `repr` of list elements, as in Python list repr. -/
def pyReprList : List Val → Str
  | [] => []
  | [v] => pyRepr v
  | v :: rest => pyRepr v ++ ", ".data ++ pyReprList rest

end

/-- Python `str()`: identity on strings, `repr`-like rendering otherwise
(for the values occurring here `str` and `repr` agree off strings). -/
def pyStr : Val → Str
  | .str s0 => s0
  | v       => pyRepr v

/-- The sensitive-value mask expression shared verbatim by both maskers:
`f"{str(value)[:3]}...{str(value)[-4:]}" if len(str(value)) > 8 else "****"`
applied to the already-`str()`-converted value. -/
def maskValueStr (s : Str) : Str :=
  if 8 < s.length then s.take 3 ++ "...".data ++ s.drop (s.length - 4)
  else "****".data

namespace Client

/-- Embedding of `client.py` `DefaultDataMasker`'s sensitive-field list. -/
def sensitive_fields : List Str :=
  ["token".data, "email".data, "password".data, "firstName".data,
   "lastName".data, "Authorization".data]

/-- Embedding of `client.py` `DefaultDataMasker.mask_sensitive_data`: copies the dict and
replaces only those top-level entries whose key is in `sensitive_fields`
and whose value is truthy; everything else (including nested dictionaries
and lists) is left untouched.  Non-dict input is returned unchanged. -/
def mask_sensitive_data : Val → Val
  | .dict es =>
      .dict (es.map fun kv =>
        if kv.1 ∈ sensitive_fields ∧ truthy kv.2
        then (kv.1, Val.str (maskValueStr (pyStr kv.2)))
        else kv)
  | v => v

end Client

namespace Libreapp

/-- Embedding of `libreapp/utils/data_masking.py` `DefaultDataMasker`'s sensitive-field
list (it additionally contains `username`). -/
def sensitive_fields : List Str :=
  ["token".data, "email".data, "password".data, "firstName".data,
   "lastName".data, "username".data, "Authorization".data]

mutual

/-- Embedding of `libreapp/utils/data_masking.py` `DefaultDataMasker.mask_sensitive_data`:
like the `client.py` masker on sensitive truthy entries, but recurses into
dictionary values and into dictionaries inside list values.  On a dict it
returns the entry-wise masked dict (`mask_entries`); non-dict input is
returned unchanged. -/
def mask_sensitive_data : Val → Val
  | .dict es => .dict (mask_entries es)
  | v => v

/-- The `for key, value in masked_data.items():` loop of the libreapp
masker, entry by entry. -/
def mask_entries : List (Str × Val) → List (Str × Val)
  | [] => []
  | (k, v) :: rest => (k, mask_entry_value k v) :: mask_entries rest

/-- One iteration of the libreapp masker loop body: sensitive truthy values
are string-masked; otherwise dictionary values are masked recursively
(`self.mask_sensitive_data(value)`, which on a dict is `mask_entries`) and
list values are masked element-wise; all other values pass through. -/
def mask_entry_value (k : Str) (v : Val) : Val :=
  if k ∈ sensitive_fields ∧ truthy v then Val.str (maskValueStr (pyStr v))
  else
    match v with
    | .dict es => .dict (mask_entries es)
    | .list xs => .list (mask_list xs)
    | v' => v'

/-- The list comprehension of the libreapp masker: dictionaries inside the
list are masked (`self.mask_sensitive_data(item)`, i.e. `mask_entries` on
their entries), other items pass through. -/
def mask_list : List Val → List Val
  | [] => []
  | x :: rest =>
      (match x with
       | .dict es => Val.dict (mask_entries es)
       | x' => x') :: mask_list rest

end

end Libreapp

/-! ## HTTP wire model and Python exception model -/

/-- How a single `requests` call can fail on the wire: a non-2xx status
(raised by `raise_for_status()` as `HTTPError`), an undecodable JSON body
(`JSONDecodeError`), or a transport/timeout failure — all subclasses of
`requests.exceptions.RequestException`. -/
inductive ReqFailure where
  | httpStatus : Nat → ReqFailure
  | jsonDecode : ReqFailure
  | transport : ReqFailure

/-- The Python exceptions this code can raise.  `fuelExhausted` is the
artefact of bounding the (unbounded) redirect recursion with fuel; it
corresponds to no terminal outcome of the Python code. -/
inductive PyError where
  | requestException : ReqFailure → PyError
  | valueError : Str → PyError
  | runtimeError : Str → PyError
  | keyError : Str → PyError
  | typeError : Str → PyError
  | attributeError : Str → PyError
  | fuelExhausted : PyError

/-- The scripted outcome of the next HTTP request on the wire. -/
inductive WireOutcome where
  | ok : Val → WireOutcome
  | httpError : Nat → WireOutcome
  | nonJson : WireOutcome
  | transport : WireOutcome

/-- One HTTP request as issued by the client (observable side effect). -/
structure Request where
  method : Str
  url : Str
  headers : List (Str × Str)
  body : Option Val
  params : List (Str × Str)

/-- Execution context: client state `st`, the server script (outcome of the
`n`-th request issued in this run), the number of requests issued so far,
and the trace of issued requests. -/
structure Ctx (σ : Type) where
  st : σ
  script : Nat → WireOutcome
  idx : Nat
  trace : List Request

/-- The effect monad of the embedding: state passing over `Ctx` with
Python-exception short-circuiting. -/
def M (σ : Type) (α : Type) : Type :=
  Ctx σ → Except PyError α × Ctx σ

instance : Monad (M σ) where
  pure a := fun c => (.ok a, c)
  bind x f := fun c =>
    match x c with
    | (.ok a, c1) => f a c1
    | (.error e, c1) => (.error e, c1)

/-- Read the client object's mutable attributes. -/
def getS : M σ σ := fun c => (.ok c.st, c)

/-- Assign to the client object's mutable attributes. -/
def modifyS (f : σ → σ) : M σ Unit :=
  fun c => (.ok (), { c with st := f c.st })

/-- Embedding of `raise e`. -/
def throwE (e : PyError) : M σ α := fun c => (.error e, c)

/-- Run a pure fallible computation (attribute access, subscripts). -/
def liftE (x : Except PyError α) : M σ α := fun c => (x, c)

/-- One `requests.request(...)` / `requests.get/post(...)` call followed by
`raise_for_status()` and `.json()`: the request is appended to the trace,
and the scripted wire outcome yields either the decoded JSON body or a
raised `RequestException`. -/
def http_request (method url : Str) (headers : List (Str × Str))
    (body : Option Val) (params : List (Str × Str)) : M σ Val := fun c =>
  let c1 := { c with trace := c.trace ++ [⟨method, url, headers, body, params⟩],
                     idx := c.idx + 1 }
  match c.script c.idx with
  | .ok b => (.ok b, c1)
  | .httpError code => (.error (.requestException (.httpStatus code)), c1)
  | .nonJson => (.error (.requestException .jsonDecode), c1)
  | .transport => (.error (.requestException .transport), c1)

/-- Python `value.get(key, default)`: only dictionaries have `.get`
(anything else raises `AttributeError`); a present key returns its value
(even if that value is `None`), an absent key returns the default. -/
def pyDictGet (v : Val) (k : Str) (dflt : Val) : Except PyError Val :=
  match v with
  | .dict es => .ok ((es.lookup k).getD dflt)
  | _ => .error (.attributeError "object has no attribute get".data)

/-- Python `value[key]`: `KeyError` for an absent key on a dictionary,
`TypeError` when subscripting a non-dictionary. -/
def pyGetItem (v : Val) (k : Str) : Except PyError Val :=
  match v with
  | .dict es =>
      match es.lookup k with
      | some x => .ok x
      | Option.none => .error (.keyError k)
  | _ => .error (.typeError "object is not subscriptable".data)

/-- Python `attr[key]` on an `Optional` attribute: subscripting `None`
raises `TypeError` (as `client_new.py`'s `accept_terms` would). -/
def pyGetItemOpt (o : Option Val) (k : Str) : Except PyError Val :=
  match o with
  | Option.none =>
      .error (.typeError "NoneType object is not subscriptable".data)
  | some v => pyGetItem v k

/-- Python `value == n` against an int literal (ints compare by value,
`True`/`False` equal `1`/`0`, other types are unequal). -/
def pyEqInt (v : Val) (n : Int) : Bool :=
  match v with
  | .int m => m == n
  | .bool b => (if b then (1 : Int) else 0) == n
  | _ => false

/-- Python `s.rstrip('/')`. -/
def rstrip_slashes (l : Str) : Str :=
  (l.reverse.dropWhile (fun ch => ch == '/')).reverse

/-- Python `s.rsplit('/', 1)[0]`: everything before the last `/`, or the
whole string when no `/` occurs. -/
def rsplit_slash_head (l : Str) : Str :=
  match l.reverse.dropWhile (fun ch => ch != '/') with
  | [] => l
  | _ :: rest => rest.reverse


/-! ## `client.py`: `LibreCGMClient` -/

namespace Client

/-- Embedding of `client.py` `ApiConfig` dataclass with its defaults. -/
structure ApiConfig where
  base_url : Str := "https://libreview-proxy.onrender.com".data
  region : Str := "us".data
  version : Str := "4.7".data
  product : Str := "llu.ios".data
  timeout : Nat := 30

/-- The mutable attributes of `client.py`'s `LibreCGMClient`. -/
structure State where
  config : ApiConfig
  base_url : Str
  email : Str
  password : Str
  token : Option Val
  auth_ticket : Option Val

/-- Embedding of `self.DEFAULT_HEADERS`, built in `__init__` from the config. -/
def DEFAULT_HEADERS (cfg : ApiConfig) : List (Str × Str) :=
  [("version".data, cfg.version), ("product".data, cfg.product)]

/-- Embedding of `LibreCGMClient.__init__`: strip trailing slashes from the configured
base URL, append the region path segment when the region string is truthy,
and start with no token and no auth ticket. -/
def init (email password : Str) (config : ApiConfig) : State :=
  let b0 := rstrip_slashes config.base_url
  let b1 := if config.region.isEmpty then b0
            else b0 ++ "/".data ++ config.region
  { config := config, base_url := b1, email := email, password := password,
    token := Option.none, auth_ticket := Option.none }

/-- Embedding of `LibreCGMClient._make_request`: logs (outside the model's observables
other than the trace) and performs the request; the `try/except` re-raises
every `RequestException`, so it behaves as the bare wire call. -/
def _make_request (method url : Str) (headers : List (Str × Str))
    (body : Option Val) (params : List (Str × Str)) : M State Val :=
  http_request method url headers body params

/-- Embedding of `LibreCGMClient.accept_terms`: precondition check on the (truthiness of
the) stored auth ticket, then POST to the terms-continuation endpoint with
`Authorization: Bearer <authTicket.token>`, then overwrite `auth_ticket`
and `token` from the response. -/
def accept_terms : M State Val := do
  let st ← getS
  if truthyOpt st.auth_ticket = false then
    throwE (.runtimeError "No auth ticket available. Must authenticate first.".data)
  else
    let url := st.base_url ++ "/auth/continue/tou".data
    let ticket_token ← liftE (pyGetItemOpt st.auth_ticket "token".data)
    let headers := DEFAULT_HEADERS st.config ++
      [("Authorization".data, "Bearer ".data ++ pyStr ticket_token)]
    let data ← _make_request "POST".data url headers Option.none []
    let dataItem ← liftE (pyGetItem data "data".data)
    let tk ← liftE (pyGetItem dataItem "authTicket".data)
    modifyS (fun s0 => { s0 with auth_ticket := some tk })
    let tokenV ← liftE (pyGetItem tk "token".data)
    modifyS (fun s0 => { s0 with token := some tokenV })
    pure data

/-- Embedding of `LibreCGMClient.authenticate`.  The Python recursion on redirect is
unbounded; the `Nat` fuel counts how many login attempts the model may
still make, and exhausting it (`PyError.fuelExhausted`) corresponds to the
Python code still recursing, never to a terminal outcome of the source. -/
def authenticate : Nat → M State Val
  | 0 => throwE .fuelExhausted
  | fuel + 1 => do
    let st ← getS
    let url := st.base_url ++ "/llu/auth/login".data
    let payload := Val.dict [("email".data, .str st.email),
                             ("password".data, .str st.password)]
    let data ← _make_request "POST".data url (DEFAULT_HEADERS st.config)
      (some payload) []
    let dataDefault ← liftE (pyDictGet data "data".data (.dict []))
    let redirectV ← liftE (pyDictGet dataDefault "redirect".data .null)
    if truthy redirectV then
      let dataItem ← liftE (pyGetItem data "data".data)
      let new_region ← liftE (pyGetItem dataItem "region".data)
      let new_base := fun s0 =>
        rsplit_slash_head s0 ++ "/".data ++ pyStr new_region
      modifyS (fun s0 => { s0 with base_url := new_base s0.base_url })
      authenticate fuel
    else
      let statusV ← liftE (pyDictGet data "status".data .null)
      if pyEqInt statusV 4 then
        let dataItem ← liftE (pyGetItem data "data".data)
        let tk ← liftE (pyGetItem dataItem "authTicket".data)
        modifyS (fun s0 => { s0 with auth_ticket := some tk })
        accept_terms
      else
        let dataItem ← liftE (pyGetItem data "data".data)
        let tk ← liftE (pyGetItem dataItem "authTicket".data)
        modifyS (fun s0 => { s0 with auth_ticket := some tk })
        let tokenV ← liftE (pyGetItem tk "token".data)
        modifyS (fun s0 => { s0 with token := some tokenV })
        pure data

/-- Embedding of `LibreCGMClient._headers`: `if not self.token:` (missing or falsy token)
raises `RuntimeError`, otherwise default headers plus the bearer token. -/
def _headers : M State (List (Str × Str)) := do
  let st ← getS
  match st.token with
  | Option.none =>
      throwE (.runtimeError "Client is not authenticated. Call .authenticate() first.".data)
  | some t =>
      if truthy t = false then
        throwE (.runtimeError "Client is not authenticated. Call .authenticate() first.".data)
      else
        pure (DEFAULT_HEADERS st.config ++
          [("Authorization".data, "Bearer ".data ++ pyStr t)])

/-- Embedding of `LibreCGMClient.get_current_user`. -/
def get_current_user : M State Val := do
  let st ← getS
  let url := st.base_url ++ "/user".data
  let h ← _headers
  _make_request "GET".data url h Option.none []

/-- Embedding of `LibreCGMClient.get_account`. -/
def get_account : M State Val := do
  let st ← getS
  let url := st.base_url ++ "/account".data
  let h ← _headers
  _make_request "GET".data url h Option.none []

/-- Embedding of `LibreCGMClient.list_connections`. -/
def list_connections : M State Val := do
  let st ← getS
  let url := st.base_url ++ "/llu/connections".data
  let h ← _headers
  _make_request "GET".data url h Option.none []

/-- Embedding of `LibreCGMClient.get_patient_graph`: rejects a falsy (empty) patient id
with `ValueError` before building the URL or touching the network. -/
def get_patient_graph (patient_id : Str) : M State Val := do
  if patient_id.isEmpty then
    throwE (.valueError "patient_id cannot be empty".data)
  else
    let st ← getS
    let url := st.base_url ++ "/llu/connections/".data ++ patient_id ++
      "/graph".data
    let h ← _headers
    _make_request "GET".data url h Option.none []

/-- Embedding of `LibreCGMClient.get_patient_logbook`: rejects an empty patient id with
`ValueError` before any network call. -/
def get_patient_logbook (patient_id : Str) : M State Val := do
  if patient_id.isEmpty then
    throwE (.valueError "patient_id cannot be empty".data)
  else
    let st ← getS
    let url := st.base_url ++ "/llu/connections/".data ++ patient_id ++
      "/logbook".data
    let h ← _headers
    _make_request "GET".data url h Option.none []

/-- Embedding of `LibreCGMClient.get_notification_settings`: rejects an empty connection
id with `ValueError` before any network call. -/
def get_notification_settings (connection_id : Str) : M State Val := do
  if connection_id.isEmpty then
    throwE (.valueError "connection_id cannot be empty".data)
  else
    let st ← getS
    let url := st.base_url ++ "/llu/notifications/settings/".data ++
      connection_id
    let h ← _headers
    _make_request "GET".data url h Option.none []

/-- Embedding of `LibreCGMClient.get_country_config`: rejects a falsy country code or one
whose length is not 2 with `ValueError`; otherwise an unauthenticated GET
with the code as a query parameter. -/
def get_country_config (country_code : Str) : M State Val := do
  if country_code.isEmpty ∨ country_code.length ≠ 2 then
    throwE (.valueError "country_code must be a valid 2-letter code".data)
  else
    let st ← getS
    let url := st.base_url ++ "/llu/config/country".data
    _make_request "GET".data url (DEFAULT_HEADERS st.config) Option.none
      [("country".data, country_code)]

end Client

/-! ## `client_new.py`: `LibreCGMClient` -/

namespace ClientNew

/-- Embedding of `client_new.py`'s class-level `DEFAULT_HEADERS`. -/
def DEFAULT_HEADERS : List (Str × Str) :=
  [("version".data, "4.7".data), ("product".data, "llu.android".data)]

/-- The mutable attributes of `client_new.py`'s `LibreCGMClient` (the
timeout is a constant 30 and plays no role in the model). -/
structure State where
  base_url : Str
  email : Str
  password : Str
  token : Option Val
  auth_ticket : Option Val

/-- Embedding of `client_new.py` `LibreCGMClient.__init__` with explicit `base_url` and
`region` arguments (defaults `"https://libreview-proxy.onrender.com"`,
`"us"`). -/
def init (email password base_url region : Str) : State :=
  let b0 := rstrip_slashes base_url
  let b1 := if region.isEmpty then b0 else b0 ++ "/".data ++ region
  { base_url := b1, email := email, password := password,
    token := Option.none, auth_ticket := Option.none }

/-- Embedding of `client_new.py` `LibreCGMClient.accept_terms`: NO precondition check —
it builds the `Authorization` header by subscripting `self.auth_ticket`
directly, so with no stored ticket it raises `TypeError` (subscripting
`None`) before any request; otherwise it behaves as `client.py`'s. -/
def accept_terms : M State Val := do
  let st ← getS
  let url := st.base_url ++ "/auth/continue/tou".data
  let ticket_token ← liftE (pyGetItemOpt st.auth_ticket "token".data)
  let headers := DEFAULT_HEADERS ++
    [("Authorization".data, "Bearer ".data ++ pyStr ticket_token)]
  let data ← http_request "POST".data url headers Option.none []
  let dataItem ← liftE (pyGetItem data "data".data)
  let tk ← liftE (pyGetItem dataItem "authTicket".data)
  modifyS (fun s0 => { s0 with auth_ticket := some tk })
  let tokenV ← liftE (pyGetItem tk "token".data)
  modifyS (fun s0 => { s0 with token := some tokenV })
  pure data

/-- Embedding of `client_new.py` `LibreCGMClient.authenticate`: same control flow as
`client.py`'s, with `requests.post` + `raise_for_status` + `.json()`
inlined instead of `_make_request`. -/
def authenticate : Nat → M State Val
  | 0 => throwE .fuelExhausted
  | fuel + 1 => do
    let st ← getS
    let url := st.base_url ++ "/llu/auth/login".data
    let payload := Val.dict [("email".data, .str st.email),
                             ("password".data, .str st.password)]
    let data ← http_request "POST".data url DEFAULT_HEADERS (some payload) []
    let dataDefault ← liftE (pyDictGet data "data".data (.dict []))
    let redirectV ← liftE (pyDictGet dataDefault "redirect".data .null)
    if truthy redirectV then
      let dataItem ← liftE (pyGetItem data "data".data)
      let new_region ← liftE (pyGetItem dataItem "region".data)
      let new_base := fun s0 =>
        rsplit_slash_head s0 ++ "/".data ++ pyStr new_region
      modifyS (fun s0 => { s0 with base_url := new_base s0.base_url })
      authenticate fuel
    else
      let statusV ← liftE (pyDictGet data "status".data .null)
      if pyEqInt statusV 4 then
        let dataItem ← liftE (pyGetItem data "data".data)
        let tk ← liftE (pyGetItem dataItem "authTicket".data)
        modifyS (fun s0 => { s0 with auth_ticket := some tk })
        accept_terms
      else
        let dataItem ← liftE (pyGetItem data "data".data)
        let tk ← liftE (pyGetItem dataItem "authTicket".data)
        modifyS (fun s0 => { s0 with auth_ticket := some tk })
        let tokenV ← liftE (pyGetItem tk "token".data)
        modifyS (fun s0 => { s0 with token := some tokenV })
        pure data

/-- Embedding of `client_new.py` `LibreCGMClient._headers`: identical to `client.py`'s. -/
def _headers : M State (List (Str × Str)) := do
  let st ← getS
  match st.token with
  | Option.none =>
      throwE (.runtimeError "Client is not authenticated. Call .authenticate() first.".data)
  | some t =>
      if truthy t = false then
        throwE (.runtimeError "Client is not authenticated. Call .authenticate() first.".data)
      else
        pure (DEFAULT_HEADERS ++
          [("Authorization".data, "Bearer ".data ++ pyStr t)])

/-- Embedding of `client_new.py` `LibreCGMClient.get_current_user`. -/
def get_current_user : M State Val := do
  let st ← getS
  let url := st.base_url ++ "/user".data
  let h ← _headers
  http_request "GET".data url h Option.none []

/-- Embedding of `client_new.py` `LibreCGMClient.get_account`. -/
def get_account : M State Val := do
  let st ← getS
  let url := st.base_url ++ "/account".data
  let h ← _headers
  http_request "GET".data url h Option.none []

/-- Embedding of `client_new.py` `LibreCGMClient.list_connections`. -/
def list_connections : M State Val := do
  let st ← getS
  let url := st.base_url ++ "/llu/connections".data
  let h ← _headers
  http_request "GET".data url h Option.none []

/-- Embedding of `client_new.py` `LibreCGMClient.get_patient_graph`: NO validation of
`patient_id` — the URL is built and the request issued for any id. -/
def get_patient_graph (patient_id : Str) : M State Val := do
  let st ← getS
  let url := st.base_url ++ "/llu/connections/".data ++ patient_id ++
    "/graph".data
  let h ← _headers
  http_request "GET".data url h Option.none []

/-- Embedding of `client_new.py` `LibreCGMClient.get_patient_logbook`: no validation. -/
def get_patient_logbook (patient_id : Str) : M State Val := do
  let st ← getS
  let url := st.base_url ++ "/llu/connections/".data ++ patient_id ++
    "/logbook".data
  let h ← _headers
  http_request "GET".data url h Option.none []

/-- Embedding of `client_new.py` `LibreCGMClient.get_notification_settings`: no
validation. -/
def get_notification_settings (connection_id : Str) : M State Val := do
  let st ← getS
  let url := st.base_url ++ "/llu/notifications/settings/".data ++
    connection_id
  let h ← _headers
  http_request "GET".data url h Option.none []

/-- Embedding of `client_new.py` `LibreCGMClient.get_country_config`: no validation of
the country code; unauthenticated GET with the code as query parameter. -/
def get_country_config (country_code : Str) : M State Val := do
  let st ← getS
  let url := st.base_url ++ "/llu/config/country".data
  http_request "GET".data url DEFAULT_HEADERS Option.none
    [("country".data, country_code)]

end ClientNew

/-! ## Execution contexts and scripted responses for the claims -/

/-- A fresh execution context: initial client state, server script, no
requests issued yet. -/
def mkCtx (st : σ) (script : Nat → WireOutcome) : Ctx σ :=
  ⟨st, script, 0, []⟩

/-- The C1 counterexample server response: a login response with status `2`
(not 0, not 4) that nevertheless carries `data.authTicket`. -/
def C1xResp : Val :=
  Val.dict [("status".data, Val.int 2),
    ("data".data, Val.dict [("authTicket".data,
      Val.dict [("token".data, Val.str "tokenFromStatus2".data)])])]

/-- Context for the C1 counterexample: fresh client, server always answers
with `C1xResp`. -/
def C1xCtx : Ctx Client.State :=
  mkCtx (Client.init "user@example.com".data "pw".data {})
    (fun _ => WireOutcome.ok C1xResp)

/-- The C1 witness server response: status 0 with an auth ticket. -/
def C1wResp : Val :=
  Val.dict [("status".data, Val.int 0),
    ("data".data, Val.dict [("authTicket".data,
      Val.dict [("token".data, Val.str "tok-0123456789".data)])])]

/-- Context for the C1 witness. -/
def C1wCtx : Ctx Client.State :=
  mkCtx (Client.init "user@example.com".data "hunter2pw".data {})
    (fun _ => WireOutcome.ok C1wResp)

/-- The C2 redirect response: `{data: {redirect: true, region: "eu"}}`. -/
def C2redirResp : Val :=
  Val.dict [("data".data, Val.dict [("redirect".data, Val.bool true),
    ("region".data, Val.str "eu".data)])]

/-- The C2 success response carrying an auth ticket with token `tv`. -/
def C2okResp (tv : Val) : Val :=
  Val.dict [("status".data, Val.int 0),
    ("data".data, Val.dict [("authTicket".data,
      Val.dict [("token".data, tv)])])]

/-- Context for C2: fresh client with default config (base URL ends in
`/us`); the server answers the first login with the redirect and every
later login with the success response. -/
def C2ctx (email password : Str) (tv : Val) : Ctx Client.State :=
  mkCtx (Client.init email password {})
    (fun n => if n = 0 then WireOutcome.ok C2redirResp
              else WireOutcome.ok (C2okResp tv))

/-- The C4 login response: status 4 with first ticket `T1`. -/
def C4loginResp (T1 : Str) : Val :=
  Val.dict [("status".data, Val.int 4),
    ("data".data, Val.dict [("authTicket".data,
      Val.dict [("token".data, Val.str T1)])])]

/-- The C4 terms-continuation response carrying the second ticket `T2`. -/
def C4touResp (T2 : Str) : Val :=
  Val.dict [("data".data, Val.dict [("authTicket".data,
    Val.dict [("token".data, Val.str T2)])])]

/-- Context for C4: fresh client with default config; the server answers
the login with status 4 / `T1` and the terms continuation with `T2`. -/
def C4ctx (email password T1 T2 : Str) : Ctx Client.State :=
  mkCtx (Client.init email password {})
    (fun n => if n = 0 then WireOutcome.ok (C4loginResp T1)
              else WireOutcome.ok (C4touResp T2))

/-- A login response that indicates a redirect to region `r`. -/
def redirectResp (r : Str) : Val :=
  Val.dict [("data".data, Val.dict [("redirect".data, Val.bool true),
    ("region".data, Val.str r)])]

/-- The context after one redirect hop of `client.py`'s `authenticate`
against a server answering `redirectResp r`: base URL region replaced by
`r`, one more login request in the trace. -/
def C3step (r : Str) (c : Ctx Client.State) : Ctx Client.State :=
  { c with
    st := { c.st with base_url :=
      rsplit_slash_head c.st.base_url ++ "/".data ++ r },
    trace := c.trace ++ [⟨"POST".data,
      c.st.base_url ++ "/llu/auth/login".data,
      Client.DEFAULT_HEADERS c.st.config,
      some (Val.dict [("email".data, .str c.st.email),
                      ("password".data, .str c.st.password)]), []⟩],
    idx := c.idx + 1 }

/-- The context after one redirect hop of `client_new.py`'s `authenticate`. -/
def C3stepNew (r : Str) (c : Ctx ClientNew.State) : Ctx ClientNew.State :=
  { c with
    st := { c.st with base_url :=
      rsplit_slash_head c.st.base_url ++ "/".data ++ r },
    trace := c.trace ++ [⟨"POST".data,
      c.st.base_url ++ "/llu/auth/login".data,
      ClientNew.DEFAULT_HEADERS,
      some (Val.dict [("email".data, .str c.st.email),
                      ("password".data, .str c.st.password)]), []⟩],
    idx := c.idx + 1 }

/-- Context for the C5 counterexample: a fresh `client_new.py` client (no
auth ticket stored). -/
def C5xCtx : Ctx ClientNew.State :=
  mkCtx (ClientNew.init "user@example.com".data "pw".data
      "https://libreview-proxy.onrender.com".data "us".data)
    (fun _ => WireOutcome.ok (Val.dict []))

/-- Context for the C5 witness on `client.py`: a fresh client. -/
def C5wCtx : Ctx Client.State :=
  mkCtx (Client.init "user@example.com".data "pw".data {})
    (fun _ => WireOutcome.ok (Val.dict []))

/-- Context for the C6 counterexample: an authenticated `client_new.py`
client (token `"tok"` stored), server answering `{}`. -/
def C6xCtx : Ctx ClientNew.State :=
  mkCtx { ClientNew.init "user@example.com".data "pw".data
      "https://libreview-proxy.onrender.com".data "us".data with
      token := some (Val.str "tok".data) }
    (fun _ => WireOutcome.ok (Val.dict []))

/-- Context for the C6 witness: a fresh `client.py` client. -/
def C6wCtx : Ctx Client.State :=
  mkCtx (Client.init "user@example.com".data "pw".data {})
    (fun _ => WireOutcome.ok (Val.dict []))

/-- The computation never touches the `token` attribute, whatever the
outcome. -/
def tokenFixed (x : M Client.State α) : Prop :=
  ∀ c r c', x c = (r, c') → c'.st.token = c.st.token

/-- On every raised exception the `token` attribute is unchanged. -/
def tokenOnErr (x : M Client.State α) : Prop :=
  ∀ c e c', x c = (Except.error e, c') → c'.st.token = c.st.token

/-- The login request `client.py`'s `authenticate` issues from state `st`. -/
def loginReq (st : Client.State) : Request :=
  ⟨"POST".data, st.base_url ++ "/llu/auth/login".data,
   Client.DEFAULT_HEADERS st.config,
   some (Val.dict [("email".data, .str st.email),
                   ("password".data, .str st.password)]), []⟩

/-- Context for the C8 witness: a fresh client against a server that
answers the login with HTTP 400. -/
def C8wCtx : Ctx Client.State :=
  mkCtx (Client.init "user@example.com".data "pw".data {})
    (fun _ => WireOutcome.httpError 400)

/-- The mask expression never yields an empty string: it yields either the
ten-character `xxx...yyyy` form or the four-character `****`. -/
theorem maskValueStr_ne_nil (s : Str) : maskValueStr s ≠ [] := by
  rw [maskValueStr]
  by_cases h : 8 < s.length
  · rw [if_pos h]
    simp
  · rw [if_neg h]
    decide

/-- The mask expression is idempotent on strings: re-masking a masked value
changes nothing (the first three and last four characters of `xxx...yyyy`
are `xxx` and `yyyy` again, and `****` is shorter than 8). -/
theorem maskValueStr_idem (s : Str) :
    maskValueStr (maskValueStr s) = maskValueStr s := by
  by_cases h : 8 < s.length
  · have hta : (s.take 3).length = 3 := by rw [List.length_take]; omega
    have htd : (s.drop (s.length - 4)).length = 4 := by
      rw [List.length_drop]; omega
    have hmask : maskValueStr s =
        s.take 3 ++ ("...".data ++ s.drop (s.length - 4)) := by
      rw [maskValueStr, if_pos h, List.append_assoc]
    have hlen : (s.take 3 ++ ("...".data ++ s.drop (s.length - 4))).length
        = 10 := by
      simp [List.length_append, hta, htd]
    rw [hmask, maskValueStr, if_pos (by rw [hlen]; omega)]
    rw [hlen]
    have h6 : (s.take 3 ++ "...".data).length = 6 := by
      simp [List.length_append, hta]
    rw [List.take_left' hta]
    have hd : (s.take 3 ++ ("...".data ++ s.drop (s.length - 4))).drop
        (10 - 4) = s.drop (s.length - 4) := by
      rw [← List.append_assoc]
      exact List.drop_left' h6
    rw [hd, List.append_assoc]
  · have hmask : maskValueStr s = "****".data := by
      rw [maskValueStr, if_neg h]
    rw [hmask]
    decide

namespace Libreapp

/-- Applying `mask_sensitive_data` to a dictionary gives exactly the entry-wise masking,
recorded so the inlined recursive calls above visibly agree with the
source's `self.mask_sensitive_data(value)` on dictionary arguments. -/
theorem mask_sensitive_data_dict (es : List (Str × Val)) :
    mask_sensitive_data (.dict es) = .dict (mask_entries es) := rfl

/-- Masking the entries preserves emptiness of the dictionary. -/
theorem mask_entries_isEmpty (es : List (Str × Val)) :
    (mask_entries es).isEmpty = es.isEmpty := by
  cases es with
  | nil => rfl
  | cons e rest => cases e; rfl

/-- Masking the list items preserves emptiness of the list. -/
theorem mask_list_isEmpty (xs : List Val) :
    (mask_list xs).isEmpty = xs.isEmpty := by
  cases xs with
  | nil => rfl
  | cons x rest => rfl

/-- Applying the loop body to an already string-masked value changes
nothing: a masked string is truthy, and re-masking it is the identity. -/
theorem mask_entry_value_masked_str (k s : Str) :
    mask_entry_value k (Val.str (maskValueStr s)) =
      Val.str (maskValueStr s) := by
  by_cases hk : k ∈ sensitive_fields ∧ truthy (Val.str (maskValueStr s))
  · have hv : mask_entry_value k (Val.str (maskValueStr s)) =
        Val.str (maskValueStr (pyStr (Val.str (maskValueStr s)))) := by
      rw [mask_entry_value, if_pos hk] <;> intro _ hx <;>
        exact Val.noConfusion hx
    rw [hv]
    exact congrArg Val.str (maskValueStr_idem s)
  · rw [mask_entry_value, if_neg hk] <;> intro _ hx <;>
      exact Val.noConfusion hx

mutual

/-- One loop iteration of the libreapp masker is idempotent. -/
theorem mask_entry_value_idem (k : Str) (v : Val) :
    mask_entry_value k (mask_entry_value k v) = mask_entry_value k v := by
  cases v with
  | dict es =>
      by_cases h : k ∈ sensitive_fields ∧ truthy (Val.dict es)
      · have hv : mask_entry_value k (Val.dict es) =
            Val.str (maskValueStr (pyStr (Val.dict es))) := by
          rw [mask_entry_value, if_pos h]
        rw [hv]
        exact mask_entry_value_masked_str k (pyStr (Val.dict es))
      · have hv : mask_entry_value k (Val.dict es) =
            Val.dict (mask_entries es) := by
          rw [mask_entry_value, if_neg h]
        rw [hv]
        have hs : ¬(k ∈ sensitive_fields ∧
            truthy (Val.dict (mask_entries es))) := by
          intro hs
          apply h
          refine ⟨hs.1, ?_⟩
          have h2 := hs.2
          simp only [truthy, mask_entries_isEmpty] at h2 ⊢
          exact h2
        have hv2 : mask_entry_value k (Val.dict (mask_entries es)) =
            Val.dict (mask_entries (mask_entries es)) := by
          rw [mask_entry_value, if_neg hs]
        rw [hv2]
        exact congrArg Val.dict (mask_entries_idem es)
  | list xs =>
      by_cases h : k ∈ sensitive_fields ∧ truthy (Val.list xs)
      · have hv : mask_entry_value k (Val.list xs) =
            Val.str (maskValueStr (pyStr (Val.list xs))) := by
          rw [mask_entry_value, if_pos h]
        rw [hv]
        exact mask_entry_value_masked_str k (pyStr (Val.list xs))
      · have hv : mask_entry_value k (Val.list xs) =
            Val.list (mask_list xs) := by
          rw [mask_entry_value, if_neg h]
        rw [hv]
        have hs : ¬(k ∈ sensitive_fields ∧
            truthy (Val.list (mask_list xs))) := by
          intro hs
          apply h
          refine ⟨hs.1, ?_⟩
          have h2 := hs.2
          simp only [truthy, mask_list_isEmpty] at h2 ⊢
          exact h2
        have hv2 : mask_entry_value k (Val.list (mask_list xs)) =
            Val.list (mask_list (mask_list xs)) := by
          rw [mask_entry_value, if_neg hs]
        rw [hv2]
        exact congrArg Val.list (mask_list_idem xs)
  | str s0 =>
      by_cases h : k ∈ sensitive_fields ∧ truthy (Val.str s0)
      · have hv : mask_entry_value k (Val.str s0) =
            Val.str (maskValueStr (pyStr (Val.str s0))) := by
          rw [mask_entry_value, if_pos h] <;> intro _ hx <;>
            exact Val.noConfusion hx
        rw [hv]
        exact mask_entry_value_masked_str k (pyStr (Val.str s0))
      · have hv : mask_entry_value k (Val.str s0) = Val.str s0 := by
          rw [mask_entry_value, if_neg h] <;> intro _ hx <;>
            exact Val.noConfusion hx
        rw [hv, hv]
  | int n =>
      by_cases h : k ∈ sensitive_fields ∧ truthy (Val.int n)
      · have hv : mask_entry_value k (Val.int n) =
            Val.str (maskValueStr (pyStr (Val.int n))) := by
          rw [mask_entry_value, if_pos h] <;> intro _ hx <;>
            exact Val.noConfusion hx
        rw [hv]
        exact mask_entry_value_masked_str k (pyStr (Val.int n))
      · have hv : mask_entry_value k (Val.int n) = Val.int n := by
          rw [mask_entry_value, if_neg h] <;> intro _ hx <;>
            exact Val.noConfusion hx
        rw [hv, hv]
  | bool b =>
      by_cases h : k ∈ sensitive_fields ∧ truthy (Val.bool b)
      · have hv : mask_entry_value k (Val.bool b) =
            Val.str (maskValueStr (pyStr (Val.bool b))) := by
          rw [mask_entry_value, if_pos h] <;> intro _ hx <;>
            exact Val.noConfusion hx
        rw [hv]
        exact mask_entry_value_masked_str k (pyStr (Val.bool b))
      · have hv : mask_entry_value k (Val.bool b) = Val.bool b := by
          rw [mask_entry_value, if_neg h] <;> intro _ hx <;>
            exact Val.noConfusion hx
        rw [hv, hv]
  | null =>
      by_cases h : k ∈ sensitive_fields ∧ truthy Val.null
      · exact absurd h.2 (by decide)
      · have hv : mask_entry_value k Val.null = Val.null := by
          rw [mask_entry_value, if_neg h] <;> intro _ hx <;>
            exact Val.noConfusion hx
        rw [hv, hv]

/-- The libreapp masker loop is idempotent entry-wise. -/
theorem mask_entries_idem (es : List (Str × Val)) :
    mask_entries (mask_entries es) = mask_entries es := by
  cases es with
  | nil => rfl
  | cons e rest =>
      cases e with
      | mk k v =>
          show (k, mask_entry_value k (mask_entry_value k v)) ::
              mask_entries (mask_entries rest) =
            (k, mask_entry_value k v) :: mask_entries rest
          rw [mask_entry_value_idem k v, mask_entries_idem rest]

/-- The libreapp masker list comprehension is idempotent. -/
theorem mask_list_idem (xs : List Val) :
    mask_list (mask_list xs) = mask_list xs := by
  cases xs with
  | nil => rfl
  | cons x rest =>
      cases x with
      | dict es =>
          show Val.dict (mask_entries (mask_entries es)) ::
              mask_list (mask_list rest) =
            Val.dict (mask_entries es) :: mask_list rest
          rw [mask_entries_idem es, mask_list_idem rest]
      | str s0 =>
          show Val.str s0 :: mask_list (mask_list rest) =
            Val.str s0 :: mask_list rest
          rw [mask_list_idem rest]
      | int n =>
          show Val.int n :: mask_list (mask_list rest) =
            Val.int n :: mask_list rest
          rw [mask_list_idem rest]
      | bool b =>
          show Val.bool b :: mask_list (mask_list rest) =
            Val.bool b :: mask_list rest
          rw [mask_list_idem rest]
      | null =>
          show Val.null :: mask_list (mask_list rest) =
            Val.null :: mask_list rest
          rw [mask_list_idem rest]
      | list ys =>
          show Val.list ys :: mask_list (mask_list rest) =
            Val.list ys :: mask_list rest
          rw [mask_list_idem rest]

end

end Libreapp

/-! ## Claim theorems: data masking (C7, C9, C10) -/

/-- C7: masking a sensitive-field value whose string form is longer than 8
characters yields its first 3 characters, an ellipsis, and its last 4
characters (`"super-secret-token-value"` becomes `"sup...alue"`); a value
of 8 characters or shorter becomes the fixed mask token `"****"`.  The
last conjunct grounds the rule in the maskers: a sensitive truthy string
entry value is replaced by exactly this mask. -/
theorem C7_mask_rule :
    (∀ v : Val, 8 < (pyStr v).length →
      maskValueStr (pyStr v) = (pyStr v).take 3 ++ "...".data ++
        (pyStr v).drop ((pyStr v).length - 4)) ∧
    (∀ v : Val, (pyStr v).length ≤ 8 →
      maskValueStr (pyStr v) = "****".data) ∧
    maskValueStr "super-secret-token-value".data = "sup...alue".data ∧
    maskValueStr "short".data = "****".data ∧
    (∀ (k s0 : Str), k ∈ Libreapp.sensitive_fields → truthy (Val.str s0) →
      Libreapp.mask_entry_value k (Val.str s0) =
        Val.str (maskValueStr s0)) := by
  refine ⟨?_, ?_, by decide, by decide, ?_⟩
  · intro v h
    rw [maskValueStr, if_pos h]
  · intro v h
    rw [maskValueStr, if_neg (by omega)]
  · intro k s0 hk hs
    have hv : Libreapp.mask_entry_value k (Val.str s0) =
        Val.str (maskValueStr (pyStr (Val.str s0))) := by
      rw [Libreapp.mask_entry_value, if_pos ⟨hk, hs⟩] <;> intro _ hx <;>
        exact Val.noConfusion hx
    exact hv

/-- Witness for C7 at concrete inputs. -/
theorem C7_mask_rule_witness :
    maskValueStr (pyStr (Val.str "super-secret-token-value".data)) =
      (pyStr (Val.str "super-secret-token-value".data)).take 3 ++
      "...".data ++ (pyStr (Val.str "super-secret-token-value".data)).drop
        ((pyStr (Val.str "super-secret-token-value".data)).length - 4) ∧
    maskValueStr (pyStr (Val.str "short".data)) = "****".data ∧
    Libreapp.mask_entry_value "token".data
        (Val.str "super-secret-token-value".data) =
      Val.str (maskValueStr "super-secret-token-value".data) :=
  ⟨C7_mask_rule.1 (Val.str "super-secret-token-value".data) (by decide),
   C7_mask_rule.2.1 (Val.str "short".data) (by decide),
   C7_mask_rule.2.2.2.2 "token".data "super-secret-token-value".data
     (by decide) (by decide)⟩

/-- C9: the `client.py` masker only rewrites top-level entries with a
sensitive key — any entry under a non-sensitive top-level key (including a
sub-dictionary or a list of dictionaries holding sensitive fields inside)
survives completely unchanged — whereas the libreapp masker recursively
masks a sensitive field found inside a sub-dictionary, and inside a
dictionary inside a list value. -/
theorem C9_client_masker_shallow_libreapp_recursive :
    (∀ (es : List (Str × Val)) (k : Str) (v : Val),
      (k, v) ∈ es → k ∉ Client.sensitive_fields →
      ∃ es2, Client.mask_sensitive_data (Val.dict es) = Val.dict es2 ∧
        (k, v) ∈ es2) ∧
    (∀ (k sk s0 : Str), k ∉ Libreapp.sensitive_fields →
      sk ∈ Libreapp.sensitive_fields → truthy (Val.str s0) →
      Libreapp.mask_sensitive_data
          (Val.dict [(k, Val.dict [(sk, Val.str s0)])]) =
        Val.dict [(k, Val.dict [(sk, Val.str (maskValueStr s0))])]) ∧
    (∀ (k sk s0 : Str), k ∉ Libreapp.sensitive_fields →
      sk ∈ Libreapp.sensitive_fields → truthy (Val.str s0) →
      Libreapp.mask_sensitive_data
          (Val.dict [(k, Val.list [Val.dict [(sk, Val.str s0)]])]) =
        Val.dict [(k, Val.list [Val.dict [(sk, Val.str (maskValueStr s0))]])]) := by
  refine ⟨?_, ?_, ?_⟩
  · intro es k v hmem hk
    refine ⟨_, rfl, ?_⟩
    refine List.mem_map.mpr ⟨(k, v), hmem, ?_⟩
    show (if k ∈ Client.sensitive_fields ∧ truthy v = true
      then (k, Val.str (maskValueStr (pyStr v)))
      else (k, v)) = (k, v)
    rw [if_neg (fun hc => hk hc.1)]
  · intro k sk s0 hk hsk hs
    show Val.dict [(k, Libreapp.mask_entry_value k
        (Val.dict [(sk, Val.str s0)]))] = _
    have h1 : Libreapp.mask_entry_value k (Val.dict [(sk, Val.str s0)]) =
        Val.dict (Libreapp.mask_entries [(sk, Val.str s0)]) := by
      rw [Libreapp.mask_entry_value, if_neg (fun hc => hk hc.1)]
    have h2 : Libreapp.mask_entry_value sk (Val.str s0) =
        Val.str (maskValueStr s0) := by
      have hv : Libreapp.mask_entry_value sk (Val.str s0) =
          Val.str (maskValueStr (pyStr (Val.str s0))) := by
        rw [Libreapp.mask_entry_value, if_pos ⟨hsk, hs⟩] <;> intro _ hx <;>
          exact Val.noConfusion hx
      exact hv
    rw [h1]
    show Val.dict [(k, Val.dict [(sk, Libreapp.mask_entry_value sk
        (Val.str s0))])] = _
    rw [h2]
  · intro k sk s0 hk hsk hs
    show Val.dict [(k, Libreapp.mask_entry_value k
        (Val.list [Val.dict [(sk, Val.str s0)]]))] = _
    have h1 : Libreapp.mask_entry_value k
        (Val.list [Val.dict [(sk, Val.str s0)]]) =
        Val.list (Libreapp.mask_list [Val.dict [(sk, Val.str s0)]]) := by
      rw [Libreapp.mask_entry_value, if_neg (fun hc => hk hc.1)]
    have h2 : Libreapp.mask_entry_value sk (Val.str s0) =
        Val.str (maskValueStr s0) := by
      have hv : Libreapp.mask_entry_value sk (Val.str s0) =
          Val.str (maskValueStr (pyStr (Val.str s0))) := by
        rw [Libreapp.mask_entry_value, if_pos ⟨hsk, hs⟩] <;> intro _ hx <;>
          exact Val.noConfusion hx
      exact hv
    rw [h1]
    show Val.dict [(k, Val.list [Val.dict [(sk,
        Libreapp.mask_entry_value sk (Val.str s0))]])] = _
    rw [h2]

/-- Witness for C9 at a concrete nested dictionary. -/
theorem C9_client_masker_shallow_libreapp_recursive_witness :
    (∃ es2, Client.mask_sensitive_data (Val.dict
        [("data".data, Val.dict [("token".data,
          Val.str "super-secret-token-value".data)])]) = Val.dict es2 ∧
      ("data".data, Val.dict [("token".data,
        Val.str "super-secret-token-value".data)]) ∈ es2) ∧
    Libreapp.mask_sensitive_data (Val.dict [("data".data,
        Val.dict [("token".data,
          Val.str "super-secret-token-value".data)])]) =
      Val.dict [("data".data, Val.dict [("token".data,
        Val.str (maskValueStr "super-secret-token-value".data))])] :=
  ⟨C9_client_masker_shallow_libreapp_recursive.1 _ "data".data _
      (by simp) (by decide),
   C9_client_masker_shallow_libreapp_recursive.2.1 "data".data "token".data
      "super-secret-token-value".data (by decide) (by decide) (by decide)⟩

/-- C10: `mask_sensitive_data` of `libreapp/utils/data_masking.py` is
idempotent: masking an already-masked dictionary changes nothing. -/
theorem C10_libreapp_mask_idempotent (d : Val) :
    Libreapp.mask_sensitive_data (Libreapp.mask_sensitive_data d) =
      Libreapp.mask_sensitive_data d := by
  cases d with
  | dict es =>
      rw [Libreapp.mask_sensitive_data_dict,
        Libreapp.mask_sensitive_data_dict, Libreapp.mask_entries_idem]
  | str s0 => rfl
  | int n => rfl
  | bool b => rfl
  | null => rfl
  | list xs => rfl

/-! ## Unfolding lemmas for the effect monad -/

theorem M_bind_def (x : M σ α) (f : α → M σ β) (c : Ctx σ) :
    (x >>= f) c = match x c with
      | (.ok a, c1) => f a c1
      | (.error e, c1) => (.error e, c1) := rfl

theorem M_pure_def (a : α) (c : Ctx σ) :
    (pure a : M σ α) c = (.ok a, c) := rfl

theorem getS_def (c : Ctx σ) : (getS : M σ σ) c = (.ok c.st, c) := rfl

theorem modifyS_def (f : σ → σ) (c : Ctx σ) :
    modifyS f c = (.ok (), { c with st := f c.st }) := rfl

theorem throwE_def (e : PyError) (c : Ctx σ) :
    (throwE e : M σ α) c = (.error e, c) := rfl

theorem liftE_def (x : Except PyError α) (c : Ctx σ) :
    (liftE x : M σ α) c = (x, c) := rfl

theorem http_request_def (method url : Str) (headers : List (Str × Str))
    (body : Option Val) (params : List (Str × Str)) (c : Ctx σ) :
    http_request method url headers body params c =
      ((match c.script c.idx with
        | .ok b => .ok b
        | .httpError code => .error (.requestException (.httpStatus code))
        | .nonJson => .error (.requestException .jsonDecode)
        | .transport => .error (.requestException .transport)),
       { c with trace := c.trace ++ [⟨method, url, headers, body, params⟩],
                idx := c.idx + 1 }) := by
  rw [http_request]
  cases c.script c.idx <;> rfl

/-! ## Claim C1: login success and the token invariant -/

/-- C1 counterexample: `authenticate()` on a login response with status 2
(neither a status-0 success nor a terms acceptance — only the single login
request is ever issued) still stores a non-null token, because the code's
success branch runs for every non-redirect response with status ≠ 4.  This
refutes the claimed invariant that the token is non-null only after a
status-0 response or completed terms acceptance. -/
theorem C1_counterexample :
    (Client.authenticate 1 C1xCtx).2.st.token =
      some (Val.str "tokenFromStatus2".data) ∧
    (Client.authenticate 1 C1xCtx).2.st.token ≠ Option.none ∧
    pyDictGet C1xResp "status".data Val.null = .ok (Val.int 2) ∧
    (Client.authenticate 1 C1xCtx).2.trace.length = 1 := by
  refine ⟨rfl, ?_, rfl, rfl⟩
  have h1 : (Client.authenticate 1 C1xCtx).2.st.token =
      some (Val.str "tokenFromStatus2".data) := rfl
  rw [h1]
  simp

/-- C1 (amended): for every login response with no redirect and status 0
containing `data.authTicket`, `authenticate()` returns the response,
stores the ticket, and sets `token` to the response's `authTicket.token`
(the session is Authenticated).  [The original claim's "only after status
0 or terms acceptance" fails: the success branch runs for any status ≠ 4,
see the counterexample.] -/
theorem C1_status_zero_login_sets_token (fuel : Nat) (c : Ctx Client.State)
    (data dataF redirectV tk tokenV : Val)
    (hresp : c.script c.idx = WireOutcome.ok data)
    (hdataF : pyDictGet data "data".data (Val.dict []) = .ok dataF)
    (hredir : pyDictGet dataF "redirect".data Val.null = .ok redirectV)
    (hnoredir : truthy redirectV = false)
    (hstatus : pyDictGet data "status".data Val.null = .ok (Val.int 0))
    (hdataItem : pyGetItem data "data".data = .ok dataF)
    (hticket : pyGetItem dataF "authTicket".data = .ok tk)
    (htoken : pyGetItem tk "token".data = .ok tokenV) :
    (Client.authenticate (fuel + 1) c).1 = .ok data ∧
    (Client.authenticate (fuel + 1) c).2.st.token = some tokenV ∧
    (Client.authenticate (fuel + 1) c).2.st.auth_ticket = some tk := by
  have hrun : Client.authenticate (fuel + 1) c =
      (.ok data, { c with
        st := { c.st with auth_ticket := some tk, token := some tokenV },
        trace := c.trace ++ [⟨"POST".data,
          c.st.base_url ++ "/llu/auth/login".data,
          Client.DEFAULT_HEADERS c.st.config,
          some (Val.dict [("email".data, .str c.st.email),
                          ("password".data, .str c.st.password)]), []⟩],
        idx := c.idx + 1 }) := by
    rw [Client.authenticate]
    simp [M_bind_def, M_pure_def, getS_def, modifyS_def, throwE_def,
      liftE_def, http_request_def, Client._make_request, hresp, hdataF,
      hredir, hnoredir, hstatus, hdataItem, hticket, htoken, pyEqInt]
  rw [hrun]
  exact ⟨rfl, rfl, rfl⟩

/-- Witness for C1 at a concrete status-0 login response. -/
theorem C1_status_zero_login_sets_token_witness :
    (Client.authenticate 1 C1wCtx).1 = .ok C1wResp ∧
    (Client.authenticate 1 C1wCtx).2.st.token =
      some (Val.str "tok-0123456789".data) ∧
    (Client.authenticate 1 C1wCtx).2.st.auth_ticket =
      some (Val.dict [("token".data, Val.str "tok-0123456789".data)]) :=
  C1_status_zero_login_sets_token 0 C1wCtx C1wResp
    (Val.dict [("authTicket".data,
      Val.dict [("token".data, Val.str "tok-0123456789".data)])])
    Val.null
    (Val.dict [("token".data, Val.str "tok-0123456789".data)])
    (Val.str "tok-0123456789".data)
    rfl rfl rfl rfl rfl rfl rfl rfl

/-! ## Claim C2: one regional redirect hop -/

/-- C2: on `{data:{redirect:true, region:"eu"}}` followed by a success
response, `authenticate()` replaces the last path segment of the base URL
with `eu`, so the final base URL ends in `/eu`; authentication succeeds
with the ticket's token, and exactly two login requests are issued — the
first against `/us`, the second against `/eu` (exactly one redirect hop). -/
theorem C2_redirect_eu_one_hop (email password : Str) (tv : Val) :
    (Client.authenticate 2 (C2ctx email password tv)).1 =
      .ok (C2okResp tv) ∧
    (Client.authenticate 2 (C2ctx email password tv)).2.st.base_url =
      "https://libreview-proxy.onrender.com/eu".data ∧
    ("/eu".data).isSuffixOf
      (Client.authenticate 2 (C2ctx email password tv)).2.st.base_url =
      true ∧
    (Client.authenticate 2 (C2ctx email password tv)).2.st.token =
      some tv ∧
    ((Client.authenticate 2 (C2ctx email password tv)).2.trace.map
      (fun r => r.url)) =
      ["https://libreview-proxy.onrender.com/us/llu/auth/login".data,
       "https://libreview-proxy.onrender.com/eu/llu/auth/login".data] :=
  ⟨rfl, rfl, rfl, rfl, rfl⟩

/-! ## Claim C4: terms-of-use acceptance stores the second token -/

/-- C4: on a status-4 login response with ticket token `T1` followed by a
terms-continuation response with token `T2`, `authenticate()` stores the
first ticket, issues the terms-continuation POST (no body) with header
`Authorization: Bearer T1`, and finally stores ticket and token `T2`. -/
theorem C4_terms_acceptance_stores_second_token
    (email password T1 T2 : Str) :
    (Client.authenticate 1 (C4ctx email password T1 T2)).1 =
      .ok (C4touResp T2) ∧
    (Client.authenticate 1 (C4ctx email password T1 T2)).2.st.token =
      some (Val.str T2) ∧
    (Client.authenticate 1 (C4ctx email password T1 T2)).2.st.auth_ticket =
      some (Val.dict [("token".data, Val.str T2)]) ∧
    (Client.authenticate 1 (C4ctx email password T1 T2)).2.trace =
      [⟨"POST".data,
        "https://libreview-proxy.onrender.com/us/llu/auth/login".data,
        [("version".data, "4.7".data), ("product".data, "llu.ios".data)],
        some (Val.dict [("email".data, Val.str email),
                        ("password".data, Val.str password)]), []⟩,
       ⟨"POST".data,
        "https://libreview-proxy.onrender.com/us/auth/continue/tou".data,
        [("version".data, "4.7".data), ("product".data, "llu.ios".data),
         ("Authorization".data, "Bearer ".data ++ T1)],
        Option.none, []⟩] :=
  ⟨rfl, rfl, rfl, rfl⟩

/-! ## Claim C3: no bound on redirect recursion -/

/-- Against a server that always answers with a redirect, `client.py`'s
`authenticate` keeps recursing: for every fuel bound it exhausts the fuel
without reaching any terminal outcome, and it issues one login request per
recursion step (the trace grows by exactly `fuel`). -/
theorem client_redirect_loop (r : Str) : ∀ (fuel : Nat)
    (c : Ctx Client.State),
    (∀ n, c.script n = WireOutcome.ok (redirectResp r)) →
    (Client.authenticate fuel c).1 = .error .fuelExhausted ∧
    (Client.authenticate fuel c).2.trace.length = c.trace.length + fuel := by
  intro fuel
  induction fuel with
  | zero => exact fun c _ => ⟨rfl, rfl⟩
  | succ fuel ih =>
      intro c hscript
      have hrun : Client.authenticate (fuel + 1) c =
          Client.authenticate fuel (C3step r c) := by
        have h1 : pyDictGet (redirectResp r) "data".data (Val.dict []) =
            .ok (Val.dict [("redirect".data, Val.bool true),
              ("region".data, Val.str r)]) := rfl
        have h2 : pyDictGet (Val.dict [("redirect".data, Val.bool true),
            ("region".data, Val.str r)]) "redirect".data Val.null =
            .ok (Val.bool true) := rfl
        have h3 : pyGetItem (redirectResp r) "data".data =
            .ok (Val.dict [("redirect".data, Val.bool true),
              ("region".data, Val.str r)]) := rfl
        have h4 : pyGetItem (Val.dict [("redirect".data, Val.bool true),
            ("region".data, Val.str r)]) "region".data =
            .ok (Val.str r) := rfl
        rw [Client.authenticate]
        simp [M_bind_def, M_pure_def, getS_def, modifyS_def, throwE_def,
          liftE_def, http_request_def, Client._make_request, hscript,
          h1, h2, h3, h4, truthy, pyStr, C3step]
      rw [hrun]
      obtain ⟨ih1, ih2⟩ := ih (C3step r c) (fun n => hscript n)
      refine ⟨ih1, ?_⟩
      rw [ih2]
      simp [C3step]
      omega

/-- The `client_new.py` `authenticate` has the same unbounded redirect
recursion as `client.py`'s. -/
theorem clientNew_redirect_loop (r : Str) : ∀ (fuel : Nat)
    (c : Ctx ClientNew.State),
    (∀ n, c.script n = WireOutcome.ok (redirectResp r)) →
    (ClientNew.authenticate fuel c).1 = .error .fuelExhausted ∧
    (ClientNew.authenticate fuel c).2.trace.length =
      c.trace.length + fuel := by
  intro fuel
  induction fuel with
  | zero => exact fun c _ => ⟨rfl, rfl⟩
  | succ fuel ih =>
      intro c hscript
      have hrun : ClientNew.authenticate (fuel + 1) c =
          ClientNew.authenticate fuel (C3stepNew r c) := by
        have h1 : pyDictGet (redirectResp r) "data".data (Val.dict []) =
            .ok (Val.dict [("redirect".data, Val.bool true),
              ("region".data, Val.str r)]) := rfl
        have h2 : pyDictGet (Val.dict [("redirect".data, Val.bool true),
            ("region".data, Val.str r)]) "redirect".data Val.null =
            .ok (Val.bool true) := rfl
        have h3 : pyGetItem (redirectResp r) "data".data =
            .ok (Val.dict [("redirect".data, Val.bool true),
              ("region".data, Val.str r)]) := rfl
        have h4 : pyGetItem (Val.dict [("redirect".data, Val.bool true),
            ("region".data, Val.str r)]) "region".data =
            .ok (Val.str r) := rfl
        rw [ClientNew.authenticate]
        simp [M_bind_def, M_pure_def, getS_def, modifyS_def, throwE_def,
          liftE_def, http_request_def, hscript, h1, h2, h3, h4, truthy,
          pyStr, C3stepNew]
      rw [hrun]
      obtain ⟨ih1, ih2⟩ := ih (C3stepNew r c) (fun n => hscript n)
      refine ⟨ih1, ?_⟩
      rw [ih2]
      simp [C3stepNew]
      omega

/-- C3: neither `client.py` nor `client_new.py` bounds the redirect
recursion of `authenticate()`: against a server whose every login response
indicates a redirect, no amount of fuel reaches a terminal outcome, and
one further login request is issued per recursion step — there is no cap
(such as 3) after which the client stops redirecting. -/
theorem C3_unbounded_redirect_recursion (r : Str) (fuel : Nat) :
    (∀ (c : Ctx Client.State),
      (∀ n, c.script n = WireOutcome.ok (redirectResp r)) →
      (Client.authenticate fuel c).1 = .error .fuelExhausted ∧
      (Client.authenticate fuel c).2.trace.length =
        c.trace.length + fuel) ∧
    (∀ (c : Ctx ClientNew.State),
      (∀ n, c.script n = WireOutcome.ok (redirectResp r)) →
      (ClientNew.authenticate fuel c).1 = .error .fuelExhausted ∧
      (ClientNew.authenticate fuel c).2.trace.length =
        c.trace.length + fuel) :=
  ⟨fun c h => client_redirect_loop r fuel c h,
   fun c h => clientNew_redirect_loop r fuel c h⟩

/-- Witness for C3: with fuel for five login attempts against an
always-redirecting server, the fresh `client.py` client exhausts the fuel
and has issued exactly five login requests. -/
theorem C3_unbounded_redirect_recursion_witness :
    (Client.authenticate 5 (mkCtx
        (Client.init "user@example.com".data "pw".data {})
        (fun _ => WireOutcome.ok (redirectResp "eu".data)))).1 =
      .error .fuelExhausted ∧
    (Client.authenticate 5 (mkCtx
        (Client.init "user@example.com".data "pw".data {})
        (fun _ => WireOutcome.ok (redirectResp "eu".data)))).2.trace.length =
      (mkCtx (Client.init "user@example.com".data "pw".data {})
        (fun _ => WireOutcome.ok (redirectResp "eu".data))).trace.length
        + 5 :=
  (C3_unbounded_redirect_recursion "eu".data 5).1
    (mkCtx (Client.init "user@example.com".data "pw".data {})
      (fun _ => WireOutcome.ok (redirectResp "eu".data)))
    (fun _ => rfl)

/-! ## Claim C5: precondition errors before any network call -/

/-- C5 counterexample: `client_new.py`'s `accept_terms` invoked with no
auth ticket raises `TypeError` (subscripting `None` while building the
`Authorization` header), not the precondition-violation `RuntimeError`
("must authenticate first") the claim requires; no network call is made. -/
theorem C5_counterexample :
    ClientNew.accept_terms C5xCtx =
      (.error (.typeError "NoneType object is not subscriptable".data),
       C5xCtx) ∧
    (ClientNew.accept_terms C5xCtx).1 ≠
      .error (.runtimeError
        "No auth ticket available. Must authenticate first.".data) ∧
    (ClientNew.accept_terms C5xCtx).2.trace.length = 0 := by
  refine ⟨rfl, ?_, rfl⟩
  have h1 : (ClientNew.accept_terms C5xCtx).1 =
      .error (.typeError "NoneType object is not subscriptable".data) :=
    rfl
  rw [h1]
  simp

/-- C5 (amended): every authenticated query operation of both clients
invoked while `token` is null raises the precondition `RuntimeError` and
issues no network call (the context, and hence the request trace, is
unchanged); `client.py`'s `accept_terms` with no stored ticket raises the
precondition `RuntimeError` "must authenticate first"; `client_new.py`'s
`accept_terms` with no stored ticket instead raises `TypeError`
(subscripting `None`), also before any network call. -/
theorem C5_precondition_errors :
    (∀ (c : Ctx Client.State), c.st.token = Option.none →
      Client.get_current_user c = (.error (.runtimeError
        "Client is not authenticated. Call .authenticate() first.".data),
        c)) ∧
    (∀ (c : Ctx Client.State), c.st.token = Option.none →
      Client.get_account c = (.error (.runtimeError
        "Client is not authenticated. Call .authenticate() first.".data),
        c)) ∧
    (∀ (c : Ctx Client.State), c.st.token = Option.none →
      Client.list_connections c = (.error (.runtimeError
        "Client is not authenticated. Call .authenticate() first.".data),
        c)) ∧
    (∀ (c : Ctx Client.State) (pid : Str), c.st.token = Option.none →
      pid.isEmpty = false →
      Client.get_patient_graph pid c = (.error (.runtimeError
        "Client is not authenticated. Call .authenticate() first.".data),
        c)) ∧
    (∀ (c : Ctx Client.State) (pid : Str), c.st.token = Option.none →
      pid.isEmpty = false →
      Client.get_patient_logbook pid c = (.error (.runtimeError
        "Client is not authenticated. Call .authenticate() first.".data),
        c)) ∧
    (∀ (c : Ctx Client.State) (cid : Str), c.st.token = Option.none →
      cid.isEmpty = false →
      Client.get_notification_settings cid c = (.error (.runtimeError
        "Client is not authenticated. Call .authenticate() first.".data),
        c)) ∧
    (∀ (c : Ctx ClientNew.State), c.st.token = Option.none →
      ClientNew.get_current_user c = (.error (.runtimeError
        "Client is not authenticated. Call .authenticate() first.".data),
        c)) ∧
    (∀ (c : Ctx ClientNew.State), c.st.token = Option.none →
      ClientNew.get_account c = (.error (.runtimeError
        "Client is not authenticated. Call .authenticate() first.".data),
        c)) ∧
    (∀ (c : Ctx ClientNew.State), c.st.token = Option.none →
      ClientNew.list_connections c = (.error (.runtimeError
        "Client is not authenticated. Call .authenticate() first.".data),
        c)) ∧
    (∀ (c : Ctx ClientNew.State) (pid : Str), c.st.token = Option.none →
      ClientNew.get_patient_graph pid c = (.error (.runtimeError
        "Client is not authenticated. Call .authenticate() first.".data),
        c)) ∧
    (∀ (c : Ctx ClientNew.State) (pid : Str), c.st.token = Option.none →
      ClientNew.get_patient_logbook pid c = (.error (.runtimeError
        "Client is not authenticated. Call .authenticate() first.".data),
        c)) ∧
    (∀ (c : Ctx ClientNew.State) (cid : Str), c.st.token = Option.none →
      ClientNew.get_notification_settings cid c = (.error (.runtimeError
        "Client is not authenticated. Call .authenticate() first.".data),
        c)) ∧
    (∀ (c : Ctx Client.State), c.st.auth_ticket = Option.none →
      Client.accept_terms c = (.error (.runtimeError
        "No auth ticket available. Must authenticate first.".data), c)) ∧
    (∀ (c : Ctx ClientNew.State), c.st.auth_ticket = Option.none →
      ClientNew.accept_terms c = (.error (.typeError
        "NoneType object is not subscriptable".data), c)) := by
  refine ⟨?_, ?_, ?_, ?_, ?_, ?_, ?_, ?_, ?_, ?_, ?_, ?_, ?_, ?_⟩
  · intro c h
    simp [Client.get_current_user, Client._headers, M_bind_def, getS_def,
      liftE_def, throwE_def, h]
  · intro c h
    simp [Client.get_account, Client._headers, M_bind_def, getS_def,
      liftE_def, throwE_def, h]
  · intro c h
    simp [Client.list_connections, Client._headers, M_bind_def, getS_def,
      liftE_def, throwE_def, h]
  · intro c pid h hid
    simp [Client.get_patient_graph, Client._headers, M_bind_def, getS_def,
      liftE_def, throwE_def, h, hid]
  · intro c pid h hid
    simp [Client.get_patient_logbook, Client._headers, M_bind_def,
      getS_def, liftE_def, throwE_def, h, hid]
  · intro c cid h hid
    simp [Client.get_notification_settings, Client._headers, M_bind_def,
      getS_def, liftE_def, throwE_def, h, hid]
  · intro c h
    simp [ClientNew.get_current_user, ClientNew._headers, M_bind_def,
      getS_def, liftE_def, throwE_def, h]
  · intro c h
    simp [ClientNew.get_account, ClientNew._headers, M_bind_def, getS_def,
      liftE_def, throwE_def, h]
  · intro c h
    simp [ClientNew.list_connections, ClientNew._headers, M_bind_def,
      getS_def, liftE_def, throwE_def, h]
  · intro c pid h
    simp [ClientNew.get_patient_graph, ClientNew._headers, M_bind_def,
      getS_def, liftE_def, throwE_def, h]
  · intro c pid h
    simp [ClientNew.get_patient_logbook, ClientNew._headers, M_bind_def,
      getS_def, liftE_def, throwE_def, h]
  · intro c cid h
    simp [ClientNew.get_notification_settings, ClientNew._headers,
      M_bind_def, getS_def, liftE_def, throwE_def, h]
  · intro c h
    simp [Client.accept_terms, M_bind_def, getS_def, liftE_def, throwE_def,
      truthyOpt, h]
  · intro c h
    simp [ClientNew.accept_terms, M_bind_def, getS_def, liftE_def,
      pyGetItemOpt, h]

/-- Witness for C5 at fresh clients (null token, no ticket). -/
theorem C5_precondition_errors_witness :
    Client.get_current_user C5wCtx = (.error (.runtimeError
      "Client is not authenticated. Call .authenticate() first.".data),
      C5wCtx) ∧
    Client.get_patient_graph "p1".data C5wCtx = (.error (.runtimeError
      "Client is not authenticated. Call .authenticate() first.".data),
      C5wCtx) ∧
    ClientNew.get_notification_settings "c1".data C5xCtx =
      (.error (.runtimeError
        "Client is not authenticated. Call .authenticate() first.".data),
       C5xCtx) ∧
    Client.accept_terms C5wCtx = (.error (.runtimeError
      "No auth ticket available. Must authenticate first.".data),
      C5wCtx) ∧
    ClientNew.accept_terms C5xCtx = (.error (.typeError
      "NoneType object is not subscriptable".data), C5xCtx) :=
  ⟨C5_precondition_errors.1 C5wCtx rfl,
   (C5_precondition_errors.2.2.2.1) C5wCtx "p1".data rfl rfl,
   (C5_precondition_errors.2.2.2.2.2.2.2.2.2.2.2.1) C5xCtx "c1".data rfl,
   (C5_precondition_errors.2.2.2.2.2.2.2.2.2.2.2.2.1) C5wCtx rfl,
   (C5_precondition_errors.2.2.2.2.2.2.2.2.2.2.2.2.2) C5xCtx rfl⟩

/-! ## Claim C6: identifier/country-code validation -/

/-- C6 counterexample: `client_new.py`'s `get_patient_graph("")` performs
no validation — it signals no `ValueError` and issues the network request
(with a double slash in the URL path). -/
theorem C6_counterexample :
    ClientNew.get_patient_graph [] C6xCtx =
      (.ok (Val.dict []),
       { C6xCtx with trace := [⟨"GET".data,
          "https://libreview-proxy.onrender.com/us/llu/connections//graph".data,
          [("version".data, "4.7".data),
           ("product".data, "llu.android".data),
           ("Authorization".data, "Bearer tok".data)],
          Option.none, []⟩], idx := 1 }) ∧
    (ClientNew.get_patient_graph [] C6xCtx).1 ≠
      .error (.valueError "patient_id cannot be empty".data) := by
  refine ⟨rfl, ?_⟩
  have h1 : (ClientNew.get_patient_graph [] C6xCtx).1 =
      .ok (Val.dict []) := rfl
  rw [h1]
  simp

/-- C6 (amended): `client.py`'s operations validate before any network
call — an empty `patient_id`/`connection_id` raises `ValueError` with the
context unchanged, and `get_country_config` raises `ValueError` for any
code whose length is not exactly 2 — whereas `client_new.py`'s
corresponding operations perform no such validation and issue the network
request (one more entry in the trace). -/
theorem C6_validation_errors :
    (∀ c : Ctx Client.State, Client.get_patient_graph [] c =
      (.error (.valueError "patient_id cannot be empty".data), c)) ∧
    (∀ c : Ctx Client.State, Client.get_patient_logbook [] c =
      (.error (.valueError "patient_id cannot be empty".data), c)) ∧
    (∀ c : Ctx Client.State, Client.get_notification_settings [] c =
      (.error (.valueError "connection_id cannot be empty".data), c)) ∧
    (∀ (code : Str) (c : Ctx Client.State), code.length ≠ 2 →
      Client.get_country_config code c =
        (.error (.valueError
          "country_code must be a valid 2-letter code".data), c)) ∧
    (∀ (c : Ctx ClientNew.State) (t : Val), c.st.token = some t →
      truthy t = true →
      (ClientNew.get_patient_graph [] c).2.trace.length =
        c.trace.length + 1) ∧
    (∀ c : Ctx ClientNew.State,
      (ClientNew.get_country_config "usa".data c).2.trace.length =
        c.trace.length + 1) := by
  refine ⟨fun c => rfl, fun c => rfl, fun c => rfl, ?_, ?_, ?_⟩
  · intro code c h
    simp only [Client.get_country_config]
    rw [if_pos (Or.inr h)]
    rfl
  · intro c t ht htr
    simp [ClientNew.get_patient_graph, ClientNew._headers, M_bind_def,
      M_pure_def, getS_def, liftE_def, throwE_def, http_request_def, ht,
      htr]
  · intro c
    simp [ClientNew.get_country_config, M_bind_def, M_pure_def, getS_def,
      http_request_def]

/-- Witness for C6 at concrete inputs (`"usa"` has 3 characters). -/
theorem C6_validation_errors_witness :
    Client.get_country_config "usa".data C6wCtx =
      (.error (.valueError
        "country_code must be a valid 2-letter code".data), C6wCtx) ∧
    (ClientNew.get_patient_graph [] C6xCtx).2.trace.length =
      C6xCtx.trace.length + 1 :=
  ⟨C6_validation_errors.2.2.2.1 "usa".data C6wCtx (by decide),
   C6_validation_errors.2.2.2.2.1 C6xCtx (Val.str "tok".data) rfl rfl⟩

/-! ## Claim C8: errors during authenticate leave the token unchanged -/

theorem tokenOnErr_of_tokenFixed {x : M Client.State α}
    (h : tokenFixed x) : tokenOnErr x :=
  fun c _e c' he => h c _ c' he

theorem tokenFixed_getS : tokenFixed (getS : M Client.State _) := by
  intro c r c' h
  cases h
  rfl

theorem tokenFixed_liftE (x : Except PyError α) :
    tokenFixed (liftE x : M Client.State α) := by
  intro c r c' h
  cases h
  rfl

theorem tokenFixed_throwE (e : PyError) :
    tokenFixed (throwE e : M Client.State α) := by
  intro c r c' h
  cases h
  rfl

theorem tokenFixed_pure (a : α) :
    tokenFixed (pure a : M Client.State α) := by
  intro c r c' h
  cases h
  rfl

theorem tokenFixed_http_request (method url : Str)
    (headers : List (Str × Str)) (body : Option Val)
    (params : List (Str × Str)) :
    tokenFixed (http_request method url headers body params :
      M Client.State Val) := by
  intro c r c' h
  rw [http_request_def] at h
  cases h
  rfl

theorem tokenFixed_modifyS (f : Client.State → Client.State)
    (hf : ∀ s, (f s).token = s.token) : tokenFixed (modifyS f) := by
  intro c r c' h
  cases h
  exact hf c.st

theorem tokenFixed_bind {x : M Client.State α} {f : α → M Client.State β}
    (hx : tokenFixed x) (hf : ∀ a, tokenFixed (f a)) :
    tokenFixed (x >>= f) := by
  intro c r c' h
  rw [M_bind_def] at h
  cases hxc : x c with
  | mk xr c1 =>
      rw [hxc] at h
      cases xr with
      | ok a =>
          have h1 := hx c _ c1 hxc
          have h2 := hf a c1 r c' h
          rw [h2, h1]
      | error e =>
          cases h
          exact hx c _ c' hxc

theorem tokenOnErr_bind {x : M Client.State α} {f : α → M Client.State β}
    (hx : tokenFixed x) (hf : ∀ a, tokenOnErr (f a)) :
    tokenOnErr (x >>= f) := by
  intro c e c' h
  rw [M_bind_def] at h
  cases hxc : x c with
  | mk xr c1 =>
      rw [hxc] at h
      cases xr with
      | ok a =>
          have h1 := hx c _ c1 hxc
          have h2 := hf a c1 e c' h
          rw [h2, h1]
      | error e1 =>
          cases h
          exact hx c _ c' hxc

theorem tokenOnErr_ite (p : Prop) [Decidable p]
    {A B : M Client.State α} (hA : tokenOnErr A) (hB : tokenOnErr B) :
    tokenOnErr (if p then A else B) := by
  by_cases h : p
  · rw [if_pos h]; exact hA
  · rw [if_neg h]; exact hB

/-- The final "set the token and return" tail never raises. -/
theorem tokenOnErr_set_token_tail (f : Client.State → Client.State)
    (a : Val) :
    tokenOnErr ((modifyS f : M Client.State Unit) >>= fun _ => pure a) := by
  intro c _e c' h
  rw [M_bind_def] at h
  rw [modifyS_def] at h
  simp [M_pure_def] at h

/-- The `client.py` `accept_terms` leaves the token unchanged on every
raised exception (it assigns the token only immediately before its
non-failing return). -/
theorem accept_terms_tokenOnErr : tokenOnErr Client.accept_terms := by
  apply tokenOnErr_bind tokenFixed_getS
  intro st
  apply tokenOnErr_ite
  · exact tokenOnErr_of_tokenFixed (tokenFixed_throwE _)
  · apply tokenOnErr_bind (tokenFixed_liftE _)
    intro ticket_token
    apply tokenOnErr_bind (tokenFixed_http_request _ _ _ _ _)
    intro data
    apply tokenOnErr_bind (tokenFixed_liftE _)
    intro dataItem
    apply tokenOnErr_bind (tokenFixed_liftE _)
    intro tk
    apply tokenOnErr_bind
    · exact tokenFixed_modifyS _ (fun s => rfl)
    intro _
    apply tokenOnErr_bind (tokenFixed_liftE _)
    intro tokenV
    exact tokenOnErr_set_token_tail _ data

/-- The `client.py` `authenticate` leaves the token unchanged on every
raised exception, at every fuel bound. -/
theorem authenticate_tokenOnErr (fuel : Nat) :
    tokenOnErr (Client.authenticate fuel) := by
  induction fuel with
  | zero => exact tokenOnErr_of_tokenFixed (tokenFixed_throwE _)
  | succ fuel ih =>
      rw [Client.authenticate]
      apply tokenOnErr_bind tokenFixed_getS
      intro st
      apply tokenOnErr_bind (tokenFixed_http_request _ _ _ _ _)
      intro data
      apply tokenOnErr_bind (tokenFixed_liftE _)
      intro dataDefault
      apply tokenOnErr_bind (tokenFixed_liftE _)
      intro redirectV
      apply tokenOnErr_ite
      · apply tokenOnErr_bind (tokenFixed_liftE _)
        intro dataItem
        apply tokenOnErr_bind (tokenFixed_liftE _)
        intro new_region
        apply tokenOnErr_bind
        · exact tokenFixed_modifyS _ (fun s => rfl)
        intro _
        exact ih
      · apply tokenOnErr_bind (tokenFixed_liftE _)
        intro statusV
        apply tokenOnErr_ite
        · apply tokenOnErr_bind (tokenFixed_liftE _)
          intro dataItem
          apply tokenOnErr_bind (tokenFixed_liftE _)
          intro tk
          apply tokenOnErr_bind
          · exact tokenFixed_modifyS _ (fun s => rfl)
          intro _
          exact accept_terms_tokenOnErr
        · apply tokenOnErr_bind (tokenFixed_liftE _)
          intro dataItem
          apply tokenOnErr_bind (tokenFixed_liftE _)
          intro tk
          apply tokenOnErr_bind
          · exact tokenFixed_modifyS _ (fun s => rfl)
          intro _
          apply tokenOnErr_bind (tokenFixed_liftE _)
          intro tokenV
          exact tokenOnErr_set_token_tail _ data

/-- C8: if any HTTP request during `authenticate()` fails (non-2xx status
raised by `raise_for_status`, or an undecodable body), the error
propagates to the caller and the `token` attribute is unchanged — in
particular still null when authentication had never succeeded.  The first
conjunct covers every error exit at every recursion depth; the other two
exhibit the propagation of a first-request failure with the whole client
state untouched. -/
theorem C8_error_leaves_unauthenticated :
    (∀ (fuel : Nat) (c : Ctx Client.State) (e : PyError)
      (c' : Ctx Client.State),
      Client.authenticate fuel c = (.error e, c') →
      c'.st.token = c.st.token) ∧
    (∀ (fuel : Nat) (c : Ctx Client.State) (code : Nat),
      c.script c.idx = WireOutcome.httpError code →
      ∃ c', Client.authenticate (fuel + 1) c =
        (.error (.requestException (.httpStatus code)), c') ∧
        c'.st = c.st) ∧
    (∀ (fuel : Nat) (c : Ctx Client.State),
      c.script c.idx = WireOutcome.nonJson →
      ∃ c', Client.authenticate (fuel + 1) c =
        (.error (.requestException .jsonDecode), c') ∧ c'.st = c.st) := by
  refine ⟨?_, ?_, ?_⟩
  · intro fuel c e c' h
    exact authenticate_tokenOnErr fuel c e c' h
  · intro fuel c code h
    refine ⟨{ c with trace := c.trace ++ [loginReq c.st], idx := c.idx + 1 }, ?_, rfl⟩
    rw [Client.authenticate]
    simp [M_bind_def, getS_def, http_request_def, Client._make_request, h,
      loginReq]
  · intro fuel c h
    refine ⟨{ c with trace := c.trace ++ [loginReq c.st], idx := c.idx + 1 }, ?_, rfl⟩
    rw [Client.authenticate]
    simp [M_bind_def, getS_def, http_request_def, Client._make_request, h,
      loginReq]

/-- Witness for C8: the HTTP 400 propagates as a `RequestException` and
the state (hence the null token) is unchanged. -/
theorem C8_error_leaves_unauthenticated_witness :
    (∃ c', Client.authenticate 1 C8wCtx =
      (.error (.requestException (.httpStatus 400)), c') ∧
      c'.st = C8wCtx.st) ∧
    ((Client.authenticate 1 C8wCtx).2.st.token = C8wCtx.st.token) :=
  ⟨C8_error_leaves_unauthenticated.2.1 0 C8wCtx 400 rfl,
   C8_error_leaves_unauthenticated.1 1 C8wCtx
     (.requestException (.httpStatus 400))
     (Client.authenticate 1 C8wCtx).2 (by rfl)⟩
